import Mathlib

/-!  Verification development for the enterprise_rag backend.

Python text values are modelled as `List Char` (named `Str` below) so that
every operation is executable by kernel reduction.  Each definition is a
shallow embedding of the correspondingly named function of the repository;
external services (the vector database, the LLM) are modelled explicitly
where the theorems need their behaviour, and are otherwise passed in as
parameters.  -/

namespace ERag

/-- Python strings, modelled as lists of characters. -/
abbrev Str := List Char

/-- The ASCII apostrophe character. -/
def apos : Char := Char.ofNat 39

/-- Whitespace in the sense of the Python `str` methods
(space, tab, newline, carriage return, vertical tab, form feed). -/
def pySpace (c : Char) : Bool :=
  c = ' ' || c = '\t' || c = '\n' || c = '\r' || c = Char.ofNat 11 || c = Char.ofNat 12

/-- Python `str.strip()`: drop leading and trailing whitespace. -/
def pyStrip (s : Str) : Str :=
  ((s.dropWhile pySpace).reverse.dropWhile pySpace).reverse

/-- Python `str.split()` with no argument: split on runs of whitespace,
dropping empty pieces. -/
def pySplit (s : Str) : List Str :=
  (List.splitOnP pySpace s).filter (· ≠ [])

/-- Python `str.lower()` (ASCII case folding suffices for the texts used). -/
def pyLower (s : Str) : Str := s.map Char.toLower

/-- Python `str.upper()`. -/
def pyUpper (s : Str) : Str := s.map Char.toUpper

/-- Python `a.replace(old, new)` for single-character `old`/`new`
(the repository only replaces "-" by "_" and " " by "_"). -/
def pyReplaceChar (old new : Char) (s : Str) : Str :=
  s.map (fun c => if c = old then new else c)

/-- Python `needle in hay` on strings: contiguous-substring membership. -/
def pyContains (hay needle : Str) : Bool :=
  needle.isPrefixOf hay ||
    match hay with
    | [] => false
    | _ :: t => pyContains t needle

/-- Python truthiness of an optional string (`None` and `""` are falsy). -/
def truthy : Option Str → Bool
  | none => false
  | some s => s ≠ []

/-- Python string concatenation by a separator: `sep.join(pieces)`. -/
def pyJoin (sep : Str) : List Str → Str
  | [] => []
  | [p] => p
  | p :: ps => p ++ sep ++ pyJoin sep ps

/-! ## A small backtracking regular-expression engine

The repository matches a handful of fixed regular expressions with
Python `re`.  `Pat` covers exactly the constructs those patterns use:
case-insensitive literals, character classes with bounded or unbounded
greedy repetition, concatenation, prioritised alternation, option and the
end anchor.  `matchEnds` returns the possible remainders of the input
after a match at the current position, in the backtracking priority order
used by `re` (greedy quantifiers, leftmost alternative first), so its head
corresponds to the match Python produces. -/

inductive Pat : Type where
  | lit (s : Str)
  | cls (f : Char → Bool) (lo hi : Nat)
  | star (f : Char → Bool)
  | seq (p q : Pat)
  | alt (p q : Pat)
  | opt (p : Pat)
  | eol
deriving Inhabited

/-- Length of the longest prefix of `cs` whose characters satisfy `f`. -/
def runLen (f : Char → Bool) : Str → Nat
  | [] => 0
  | c :: cs => if f c then runLen f cs + 1 else 0

/-- Case-insensitive literal prefix test (all the patterns in the
repository carry `re.IGNORECASE`). -/
def litPrefix : Str → Str → Bool
  | [], _ => true
  | _ :: _, [] => false
  | a :: s, c :: cs => (Char.toLower a = Char.toLower c) && litPrefix s cs

/-- All remainders after matching `p` at the start of `cs`, in
backtracking priority order (first = the match `re` commits to). -/
def matchEnds : Pat → Str → List Str
  | .lit s, cs => if litPrefix s cs then [cs.drop s.length] else []
  | .cls f lo hi, cs =>
      let r := min (runLen f cs) hi
      if r < lo then []
      else (List.range (r + 1 - lo)).map (fun j => cs.drop (r - j))
  | .star f, cs =>
      let r := runLen f cs
      (List.range (r + 1)).map (fun j => cs.drop (r - j))
  | .seq p q, cs => (matchEnds p cs).flatMap (matchEnds q)
  | .alt p q, cs => matchEnds p cs ++ matchEnds q cs
  | .opt p, cs => matchEnds p cs ++ [cs]
  | .eol, cs => if cs = [] then [[]] else []

/-- Python `re.match`: does `p` match at the start of `cs`? -/
def reMatch (p : Pat) (cs : Str) : Bool :=
  matchEnds p cs ≠ []

/-- Python `re.search`: the text of the leftmost match of `p` in `cs`,
if any (greedy at the first position where a match exists). -/
def reSearch (p : Pat) (cs : Str) : Option Str :=
  match matchEnds p cs with
  | r :: _ => some (cs.take (cs.length - r.length))
  | [] =>
      match cs with
      | [] => none
      | _ :: t => reSearch p t

/-- Alternation of a non-empty list of patterns, in the given order. -/
def altList : List Pat → Pat
  | [] => .eol
  | [p] => p
  | p :: ps => .alt p (altList ps)

/-- `\s+` for a character class. -/
def plus (f : Char → Bool) : Pat := .seq (.cls f 1 1) (.star f)

/-- Literal pattern from a string literal. -/
def plit (s : String) : Pat := .lit s.toList

/-! ## `backend/rag/query_filters.py` -/

/-- `[-_]` -/
def dashChar (c : Char) : Bool := c = '-' || c = '_'

/-- `\d` (the queries only contain ASCII digits). -/
def digitChar (c : Char) : Bool := c.isDigit

/-- `[A-Z]` under `re.IGNORECASE`. -/
def alphaChar (c : Char) : Bool := c.isAlpha

/-- `[0-9A-Z]` under `re.IGNORECASE`. -/
def alnumChar (c : Char) : Bool := c.isDigit || c.isAlpha

/-- `PATTERNS["doc_id"]`: `ETR[-_]?\d{1,2}[-_]\d{2}[-_]\d{1,4}`. -/
def docIdPat : Pat :=
  .seq (plit "ETR") (.seq (.cls dashChar 0 1) (.seq (.cls digitChar 1 2)
    (.seq (.cls dashChar 1 1) (.seq (.cls digitChar 2 2)
      (.seq (.cls dashChar 1 1) (.cls digitChar 1 4))))))

/-- `PATTERNS["vehicle_model"]`: `Pro\s*\d{4}(?:\s*[A-Z]{2,4})?`. -/
def vehicleModelPat : Pat :=
  .seq (plit "Pro") (.seq (.star pySpace) (.seq (.cls digitChar 4 4)
    (.opt (.seq (.star pySpace) (.cls alphaChar 2 4)))))

/-- `PATTERNS["chassis_no"]`: `MC[0-9A-Z]{14,17}`. -/
def chassisNoPat : Pat :=
  .seq (plit "MC") (.cls alnumChar 14 17)

/-- A phrase of two words separated by `\s*`. -/
def phrase2 (a b : String) : Pat :=
  .seq (plit a) (.seq (.star pySpace) (plit b))

/-- `PATTERNS["test_type"]`: the alternation of ten test-type phrases. -/
def testTypePat : Pat :=
  altList [phrase2 "brake" "test", phrase2 "noise" "test",
    phrase2 "performance" "test", phrase2 "emission" "test",
    phrase2 "endurance" "test", phrase2 "durability" "test",
    plit "gradeability", phrase2 "fuel" "consumption",
    plit "acceleration", phrase2 "load" "test"]

/-- The filters dict produced by `extract_filters_from_query`. -/
structure ExtractedFilters where
  doc_id : Option Str := none
  vehicle_model : Option Str := none
  chassis_no : Option Str := none
  test_type : Option Str := none
deriving DecidableEq, Repr

/-- `extract_filters_from_query`: regex-detect the four selectors and
normalise them; the query itself is returned unchanged as the first
component (`cleaned_query` is never modified). -/
def extract_filters_from_query (query : Str) : Str × ExtractedFilters :=
  let doc := (reSearch docIdPat query).map
    (fun m => pyUpper (pyReplaceChar '-' '_' m))
  let vm := (reSearch vehicleModelPat query).map pyStrip
  let ch := (reSearch chassisNoPat query).map pyUpper
  let tt := (reSearch testTypePat query).map
    (fun m => pyReplaceChar ' ' '_' (pyLower m))
  (query, { doc_id := doc, vehicle_model := vm, chassis_no := ch, test_type := tt })

/-- `build_enhanced_query`: append `[Document: … | Vehicle: … | Chassis: …]`
for the selectors that matched (test type is not appended). -/
def build_enhanced_query (query : Str) (filters : ExtractedFilters) : Str :=
  let enhancements :=
    (if truthy filters.doc_id then
      ["Document: ".toList ++ filters.doc_id.getD []] else []) ++
    (if truthy filters.vehicle_model then
      ["Vehicle: ".toList ++ filters.vehicle_model.getD []] else []) ++
    (if truthy filters.chassis_no then
      ["Chassis: ".toList ++ filters.chassis_no.getD []] else [])
  if enhancements ≠ [] then
    query ++ " [".toList ++ pyJoin " | ".toList enhancements ++ "]".toList
  else query

/-! ## `backend/rag/retrieval.py`

The repository-side code builds qdrant filter conditions and issues
`query_points` calls; the vector store itself is external.  Its behaviour
is modelled from the spec: `query_points` returns the best-scoring points
of the collection that satisfy every `must` condition, and hybrid queries
fuse the per-space prefetch lists by Reciprocal Rank Fusion. -/

/-- Payload metadata of a stored point (the fields the filters refer to). -/
structure PayloadMeta where
  group_id : Int
  doc_id : Str := []
  test_type : Option Str := none
  vehicle_model : Str := []
  compliance_status : List Str := []
deriving DecidableEq, Repr

/-- A stored point: id, chunk text, payload metadata. -/
structure QPoint where
  id : Nat
  text : Str := []
  meta : PayloadMeta
deriving DecidableEq, Repr

/-- A qdrant match specification (`MatchAny`, `MatchText`, `MatchValue`). -/
inductive MatchSpec : Type where
  | matchAnyInt (ids : List Int)
  | matchAnyStr (vs : List Str)
  | matchText (t : Str)
  | matchValue (v : Str)
deriving DecidableEq, Repr

/-- A qdrant `FieldCondition`: a payload key plus a match specification. -/
structure Condition where
  key : String
  mtch : MatchSpec
deriving Repr

/-- A payload value selected by a condition key. -/
inductive PValue : Type where
  | int (v : Int)
  | str (s : Str)
  | strList (l : List Str)
  | missing
deriving DecidableEq, Repr

/-- The payload value stored under a metadata key. -/
def payloadValue (p : QPoint) : String → PValue
  | "metadata.group_id" => .int p.meta.group_id
  | "metadata.doc_id" => .str p.meta.doc_id
  | "metadata.test_type" =>
      match p.meta.test_type with
      | some t => .str t
      | none => .missing
  | "metadata.vehicle_model" => .str p.meta.vehicle_model
  | "metadata.compliance_status" => .strList p.meta.compliance_status
  | _ => .missing

/-- Modelled from the spec: qdrant condition semantics.  `MatchAny` is
membership (element-wise on array payloads), `MatchText` is full-text
(substring) match, `MatchValue` is equality. -/
def satisfies (p : QPoint) (c : Condition) : Bool :=
  match payloadValue p c.key, c.mtch with
  | .int v, .matchAnyInt ids => decide (v ∈ ids)
  | .str s, .matchText t => pyContains s t
  | .str s, .matchValue v => decide (s = v)
  | .strList l, .matchAnyStr vs => l.any (fun x => decide (x ∈ vs))
  | _, _ => false

/-- Insert a point into a score-descending list (stable for ties). -/
def insertByScore (score : QPoint → ℚ) (p : QPoint) : List QPoint → List QPoint
  | [] => [p]
  | q :: qs =>
      if score q ≤ score p then p :: q :: qs else q :: insertByScore score p qs

/-- Sort points by score, best first. -/
def sortByScoreDesc (score : QPoint → ℚ) : List QPoint → List QPoint
  | [] => []
  | p :: ps => insertByScore score p (sortByScoreDesc score ps)

/-- Modelled from the spec: `client.query_points` with a `must` filter
returns the top `limit` points of the collection that satisfy every
condition, ranked by the similarity score of the queried vector space. -/
def query_points (collection : List QPoint) (score : QPoint → ℚ)
    (conds : List Condition) (limit : Nat) : List QPoint :=
  (sortByScoreDesc score
    (collection.filter (fun p => conds.all (satisfies p)))).take limit

/-- The `must` filter of the dense-only `search`: exactly the
`metadata.group_id ∈ group_ids` condition. -/
def searchFilter (group_ids : List Int) : List Condition :=
  [⟨"metadata.group_id", .matchAnyInt group_ids⟩]

/-- `search`: dense-only retrieval (legacy path). -/
def search (collection : List QPoint) (denseScore : QPoint → ℚ)
    (group_ids : List Int) (limit : Nat := 10) : List QPoint :=
  query_points collection denseScore (searchFilter group_ids) limit

/-- The optional metadata filters accepted by `hybrid_search`. -/
structure RetrievalFilters where
  doc_id : Option Str := none
  test_type : Option Str := none
  vehicle_model : Option Str := none
  compliance_status : Option (List Str) := none
deriving DecidableEq, Repr

/-- The `must` conditions built by `hybrid_search`: the group condition is
always first, then one condition per truthy optional filter. -/
def hybrid_must_conditions (group_ids : List Int)
    (filters : Option RetrievalFilters) : List Condition :=
  ⟨"metadata.group_id", .matchAnyInt group_ids⟩ ::
    match filters with
    | none => []
    | some f =>
        (if truthy f.doc_id then
          [⟨"metadata.doc_id", .matchText (f.doc_id.getD [])⟩] else []) ++
        (if truthy f.test_type then
          [⟨"metadata.test_type", .matchValue (f.test_type.getD [])⟩] else []) ++
        (if truthy f.vehicle_model then
          [⟨"metadata.vehicle_model", .matchText (f.vehicle_model.getD [])⟩] else []) ++
        (match f.compliance_status with
          | some l => if l ≠ [] then
              [⟨"metadata.compliance_status", .matchAnyStr l⟩] else []
          | none => [])

/-- Modelled from the spec: Reciprocal Rank Fusion.  The score of a point
is the sum over the prefetch lists of `1 / (k + rank)`, rank 1-based,
and `0` for a list the point does not appear in. -/
def rrfScore (k : Nat) (lists : List (List QPoint)) (p : QPoint) : ℚ :=
  (lists.map (fun l =>
    match l.findIdx? (fun q => decide (q = p)) with
    | some i => mkRat 1 (k + i + 1)
    | none => 0)).sum

/-- `hybrid_search`: prefetch the top `prefetch_limit` candidates from the
dense and the sparse space (both under the full `must` filter), fuse them
by RRF, and return the top `limit` of the fused pool. -/
def hybrid_search (collection : List QPoint)
    (denseScore sparseScore : QPoint → ℚ) (rrfK : Nat)
    (group_ids : List Int) (limit : Nat := 10) (prefetch_limit : Nat := 20)
    (filters : Option RetrievalFilters := none) : List QPoint :=
  let conds := hybrid_must_conditions group_ids filters
  let densePre := query_points collection denseScore conds prefetch_limit
  let sparsePre := query_points collection sparseScore conds prefetch_limit
  let pool := (densePre ++ sparsePre).dedup
  (sortByScoreDesc (rrfScore rrfK [densePre, sparsePre]) pool).take limit

/-! ## `backend/rag/chunking.py` -/

/-- An extracted page as produced by the PDF/PPTX extractors. -/
structure PageInput where
  text : Str := []
  page_number : Nat := 1
  extraction_method : Str := []
deriving DecidableEq, Repr

/-- An emitted chunk. -/
structure Chunk where
  text : Str
  page_number : Nat
  chunk_type : Str
deriving DecidableEq, Repr

/-- The word windows of `chunk_text`: starting at every multiple of
`chunk_size - overlap`, take `chunk_size` words; an empty window is not
emitted (`if chunk_words`).  Python raises `ValueError` when the stride
is not positive; that degenerate case is modelled as no output. -/
def chunkTextWords (chunkSize overlap : Nat) (ws : List Str) : List (List Str) :=
  if hw : ws = [] then []
  else if hs : chunkSize ≤ overlap then []
  else
    let w := ws.take chunkSize
    let rest := chunkTextWords chunkSize overlap (ws.drop (chunkSize - overlap))
    if w = [] then rest else w :: rest
termination_by ws.length
decreasing_by
  simp only [List.length_drop]
  have : ws.length ≠ 0 := fun h => hw (List.length_eq_zero.mp h)
  omega

/-- `chunk_text`: split into words, window, and re-join with spaces. -/
def chunk_text (text : Str) (chunkSize overlap : Nat) : List Str :=
  (chunkTextWords chunkSize overlap (pySplit text)).map (pyJoin [' '])

/-- The table test applied to a stripped part inside `_chunk_with_tables`. -/
def isTablePart (part : Str) : Bool :=
  "[TABLE".toList.isPrefixOf part ||
  "### Table".toList.isPrefixOf part ||
  ("|".toList.isPrefixOf part && pyContains part "---".toList)

/-- Flush the accumulated text buffer as prose chunks. -/
def flushBuffer (page_num chunkSize overlap : Nat) (buf : Str) : List Chunk :=
  if pyStrip buf ≠ [] then
    (chunk_text buf chunkSize overlap).map
      (fun t => { text := t, page_number := page_num, chunk_type := "text".toList })
  else []

/-- The part loop of `_chunk_with_tables`: strip each part, skip empty
parts, emit each table part as a single `table` chunk, and accumulate the
other parts into a buffer that is prose-chunked when flushed. -/
def chunkParts (page_num chunkSize overlap : Nat) :
    List Str → Str → List Chunk
  | [], buf => flushBuffer page_num chunkSize overlap buf
  | p :: ps, buf =>
      let part := pyStrip p
      if part = [] then chunkParts page_num chunkSize overlap ps buf
      else if isTablePart part then
        flushBuffer page_num chunkSize overlap buf ++
        ({ text := part, page_number := page_num, chunk_type := "table".toList } ::
          chunkParts page_num chunkSize overlap ps [])
      else chunkParts page_num chunkSize overlap ps (buf ++ '\n' :: part)

/-- `_chunk_with_tables`, parameterised by the `re.split` of the table
pattern (the split determines the block boundaries only; every theorem
below holds for every split function). -/
def chunk_with_tables (split : Str → List Str) (text : Str)
    (page_num chunkSize overlap : Nat) : List Chunk :=
  chunkParts page_num chunkSize overlap (split text) []

/-- The page-level table-marker test of `chunk_document_pages`. -/
def hasTableMarkers (t : Str) : Bool :=
  pyContains t "[TABLE".toList ||
  pyContains t "### Table".toList ||
  pyContains t "--- Table Data ---".toList

/-- The chunks emitted for one page: a non-huge `python-pptx` slide is
one `slide` chunk (dropped when blank); otherwise pages with table
markers go through `_chunk_with_tables` and the rest through plain
`chunk_text`.  The slide threshold `word_count <= chunk_size * 1.5` is
the exact integer condition `2 * word_count <= 3 * chunk_size`. -/
def pageChunks (split : Str → List Str) (chunkSize overlap : Nat)
    (page : PageInput) : List Chunk :=
  if page.extraction_method = "python-pptx".toList ∧
      2 * (pySplit page.text).length ≤ 3 * chunkSize then
    if pyStrip page.text ≠ [] then
      [{ text := page.text, page_number := page.page_number,
         chunk_type := "slide".toList }]
    else []
  else if hasTableMarkers page.text then
    chunk_with_tables split page.text page.page_number chunkSize overlap
  else
    (chunk_text page.text chunkSize overlap).map
      (fun t => { text := t, page_number := page.page_number,
                  chunk_type := "text".toList })

/-- `chunk_document_pages` (default sizes 300 / 50). -/
def chunk_document_pages (split : Str → List Str) (pages : List PageInput)
    (chunkSize : Nat := 300) (overlap : Nat := 50) : List Chunk :=
  pages.flatMap (pageChunks split chunkSize overlap)

/-! ## `backend/rag/intent_classifier.py`

Confidence values are the exact rationals behind the Python float
literals (`0.95 = mkRat 95 100`, and so on; all are exactly
representable comparisons). -/

/-- The `Intent` enum. -/
inductive Intent : Type where
  | greeting
  | document_query
  | follow_up
  | clarification
  | out_of_scope
deriving DecidableEq, Repr

/-- `Intent.value`: the enum member string values. -/
def Intent.value : Intent → Str
  | .greeting => "greeting".toList
  | .document_query => "document_query".toList
  | .follow_up => "follow_up".toList
  | .clarification => "clarification".toList
  | .out_of_scope => "out_of_scope".toList

/-- `Intent.name`: the Python enum member names. -/
def Intent.pyName : Intent → Str
  | .greeting => "GREETING".toList
  | .document_query => "DOCUMENT_QUERY".toList
  | .follow_up => "FOLLOW_UP".toList
  | .clarification => "CLARIFICATION".toList
  | .out_of_scope => "OUT_OF_SCOPE".toList

/-- Iteration order of `for intent in Intent` (declaration order). -/
def intentList : List Intent :=
  [.greeting, .document_query, .follow_up, .clarification, .out_of_scope]

/-- `[\s!.,]` -/
def punctGreet (c : Char) : Bool := pySpace c || c = '!' || c = '.' || c = ','

/-- `[\s!?,]` -/
def punctHow (c : Char) : Bool := pySpace c || c = '!' || c = '?' || c = ','

/-- `GREETING_PATTERNS` (each is anchored with a trailing `$`). -/
def GREETING_PATTERNS : List Pat :=
  [.seq (altList [plit "hi", plit "hello", plit "hey",
      .seq (plit "good") (.seq (.star pySpace)
        (altList [plit "morning", plit "afternoon", plit "evening"])),
      plit "greetings"]) (.seq (.star punctGreet) .eol),
   .seq (altList [.seq (plit "how") (.seq (plus pySpace) (.seq (plit "are")
        (.seq (plus pySpace) (plit "you")))),
      .seq (plit "what") (.seq (.cls (fun c => c = apos) 0 1)
        (.seq (plit "s") (.seq (plus pySpace) (plit "up")))),
      plit "howdy"]) (.seq (.star punctHow) .eol),
   .seq (altList [.seq (plit "thank") (.cls (fun c => c = 's') 0 1),
      .seq (plit "thank") (.seq (plus pySpace) (plit "you")),
      plit "bye", plit "goodbye",
      .seq (plit "see") (.seq (plus pySpace) (plit "you"))])
    (.seq (.star punctGreet) .eol)]

/-- `FOLLOW_UP_PATTERNS` (prefix matches, no trailing anchor). -/
def FOLLOW_UP_PATTERNS : List Pat :=
  [.seq (altList [plit "what", plit "which", plit "how", plit "where",
      plit "when", plit "why", plit "who"])
    (.seq (plus pySpace) (.seq (altList [plit "about", plit "is", plit "are",
      plit "was", plit "were"]) (.seq (plus pySpace)
        (altList [plit "it", plit "this", plit "that", plit "these",
          plit "those"])))),
   altList [.seq (plit "tell") (.seq (plus pySpace) (.seq (plit "me")
        (.seq (plus pySpace) (plit "more")))),
      .seq (plit "more") (.seq (plus pySpace) (plit "details")),
      plit "explain", plit "elaborate"],
   altList [plit "and", plit "also", plit "additionally", plit "furthermore"],
   .seq (altList [.seq (plit "can") (.seq (plus pySpace) (plit "you")),
      .seq (plit "could") (.seq (plus pySpace) (plit "you"))])
    (.seq (plus pySpace) (altList [plit "also", plit "explain", plit "show"]))]

/-- `OUT_OF_SCOPE_PATTERNS` (searched anywhere in the query). -/
def OUT_OF_SCOPE_PATTERNS : List Pat :=
  [altList [plit "weather", plit "news", plit "joke", plit "song",
    plit "music", plit "movie", plit "game", plit "sport"],
   altList [.seq (plit "write") (.seq (plus pySpace) (plit "code")),
    plit "python", plit "javascript", plit "programming"],
   altList [plit "recipe", plit "cook", plit "food", plit "restaurant"]]

/-- `classify_intent_rule_based`: the fast rule path. -/
def classify_intent_rule_based (query : Str) (has_history : Bool := false) :
    Intent × ℚ :=
  let query_lower := pyStrip (pyLower query)
  if GREETING_PATTERNS.any (fun p => reMatch p query_lower) then
    (.greeting, mkRat 95 100)
  else if has_history && FOLLOW_UP_PATTERNS.any (fun p => reMatch p query_lower) then
    (.follow_up, mkRat 85 100)
  else if has_history && (pySplit query_lower).length ≤ 3 then
    (.follow_up, mkRat 7 10)
  else if OUT_OF_SCOPE_PATTERNS.any (fun p => (reSearch p query_lower).isSome) then
    (.out_of_scope, mkRat 8 10)
  else (.document_query, mkRat 9 10)

/-- The response-parsing loop of `classify_intent_llm`: the first enum
member whose upper-cased value or name occurs in the response. -/
def parseIntent (resp : Str) : Option Intent :=
  intentList.find? (fun i =>
    pyContains resp (pyUpper i.value) || pyContains resp i.pyName)

/-- `classify_intent_llm`.  The LLM call is external; its outcome is the
`Except` argument (`.error` models any exception raised by the call).
The function itself is total: on an exception it falls back to the
rule-based classification; a response matching no member maps to
`document_query` with confidence 0.6. -/
def classify_intent_llm (llm : Except Unit Str) (query : Str)
    (history : List Str) : Intent × ℚ :=
  match llm with
  | .error _ => classify_intent_rule_based query (history ≠ [])
  | .ok r =>
      let response := pyUpper (pyStrip r)
      match parseIntent response with
      | some i => (i, mkRat 9 10)
      | none => (.document_query, mkRat 6 10)

/-- `classify_intent`: rule-based first; the LLM fallback runs exactly
when the caller opts in or the rule confidence is below 0.75. -/
def classify_intent (llm : Except Unit Str) (query : Str)
    (history : List Str) (use_llm : Bool := false) : Intent × ℚ :=
  let rb := classify_intent_rule_based query (history ≠ [])
  if use_llm || rb.2 < mkRat 75 100 then classify_intent_llm llm query history
  else rb

/-! ## `backend/rag/agentic_router.py` and `backend/rag/generation.py` -/

/-- A conversation message. -/
structure ChatMsg where
  role : Str := []
  content : Str := []
deriving DecidableEq, Repr

/-- A retrieved chunk as stored in the agent state (the fields
`format_context` reads). -/
structure RetrievedChunk where
  text : Str := []
  page_number : Option Nat := none
  filename : Option Str := none
  section_ : Str := []
deriving DecidableEq, Repr

/-- `format_context` from `generation.py`: one `Source […]:` block per
chunk. -/
def format_context (chunks : List RetrievedChunk) : Str :=
  chunks.foldl (fun acc c =>
    let pageStr := match c.page_number with
      | some n => Nat.toDigits 10 n
      | none => "?".toList
    let filename := c.filename.getD "Unknown".toList
    let src := "[".toList ++ filename ++ ", Page ".toList ++ pageStr ++
      (if c.section_ ≠ [] then ", ".toList ++ c.section_ else []) ++ "]".toList
    acc ++ "Source ".toList ++ src ++ ":\n".toList ++ c.text ++ "\n\n".toList) []

/-- The agent state (the fields the embedded nodes touch).
`enhanced_query` is optional to model `state.get("enhanced_query",
state["query"])`. -/
structure AgentState where
  query : Str
  history : List ChatMsg := []
  prompt_type : Str := "general".toList
  metadata_filters : ExtractedFilters := {}
  enhanced_query : Option Str := none
  retrieved_chunks : List RetrievedChunk := []
  response : Str := []
deriving Repr

/-- `extract_metadata_node`: store the extracted filters and the first
component of `extract_filters_from_query` as the enhanced query. -/
def extract_metadata_node (st : AgentState) : AgentState :=
  let r := extract_filters_from_query st.query
  { st with metadata_filters := r.2, enhanced_query := some r.1 }

/-- `retrieve_node`, parameterised by the retriever (embedding plus
hybrid search).  The embedded query is
`state.get("enhanced_query", state["query"])`. -/
def retrieve_node (retriever : Str → ExtractedFilters → List RetrievedChunk)
    (st : AgentState) : AgentState :=
  let query := st.enhanced_query.getD st.query
  { st with retrieved_chunks := retriever query st.metadata_filters }

/-- The fixed zero-chunk response of `generate_node`. -/
def NO_RESULTS_RESPONSE : Str :=
  "I couldn".toList ++ [apos] ++
  "t find relevant information in the uploaded documents for your query.".toList

/-- The exact refusal string that `_GROUNDING_RULES` in
`group_prompts.py` instructs the LLM to emit when the context does not
contain the answer. -/
def UNAVAILABLE_RESPONSE : Str :=
  "This information is not available in the uploaded documents.".toList

/-- The last five history turns formatted for the prompt. -/
def historyText (history : List ChatMsg) : Str :=
  if history ≠ [] then
    pyJoin ['\n'] ((history.drop (history.length - 5)).map
      (fun m => pyUpper m.role ++ ": ".toList ++ m.content))
  else []

/-- `generate_node`.  The LLM and the group prompt builder
(`get_system_prompt`) are external templates passed as parameters; with
zero retrieved chunks neither is consulted and the fixed string is
returned. -/
def generate_node (llm : Str × Str → Str)
    (promptBuilder : Str → Str → Str → Str → Str × Str)
    (st : AgentState) : AgentState :=
  if st.retrieved_chunks = [] then
    { st with response := NO_RESULTS_RESPONSE }
  else
    let context := format_context st.retrieved_chunks
    let history := historyText st.history
    let prompts := promptBuilder st.prompt_type context st.query history
    { st with response := llm prompts }

/-- The query string `pipeline.generate_answer` embeds and searches with:
the enhanced query built from the auto-extracted filters. -/
def pipeline_enhanced_query (query : Str) : Str :=
  let r := extract_filters_from_query query
  build_enhanced_query query r.2

/-! ## `backend/rag/metadata_extraction.py` (`merge_metadata`) -/

/-- The metadata record produced by `extract_metadata` (list fields and
optional scalar fields; `doc_id` is always set to the document name). -/
structure DocMetadata where
  doc_id : Str := []
  keywords : List Str := []
  vehicle_model : Option Str := none
  test_type : Option Str := none
  chassis_no : Option Str := none
  test_date : Option Str := none
  report_no : Option Str := none
  registration_no : Option Str := none
  engine_model : Option Str := none
  gvw : Option Str := none
  power : Option Str := none
  compliance_status : List Str := []
  standards : List Str := []
  test_parameters : List Str := []
deriving DecidableEq, Repr

/-- `merge_metadata`: start from the document record, replace the four
list fields by the deduplicated union (`list(set(doc + chunk))`; Python
set order is unspecified, deduplication is what matters), and let the
chunk value override exactly the three scalar fields `test_type`,
`vehicle_model`, `chassis_no` when the chunk value is truthy. -/
def merge_metadata (doc chunk : DocMetadata) : DocMetadata :=
  { doc with
    keywords := (doc.keywords ++ chunk.keywords).dedup
    test_parameters := (doc.test_parameters ++ chunk.test_parameters).dedup
    compliance_status := (doc.compliance_status ++ chunk.compliance_status).dedup
    standards := (doc.standards ++ chunk.standards).dedup
    test_type := if truthy chunk.test_type then chunk.test_type else doc.test_type
    vehicle_model :=
      if truthy chunk.vehicle_model then chunk.vehicle_model else doc.vehicle_model
    chassis_no :=
      if truthy chunk.chassis_no then chunk.chassis_no else doc.chassis_no }

/-! ## `backend/rag/observability.py` (`estimate_tokens`) -/

/-- `estimate_tokens`: `int(len(text.split()) * 1.3)`.  Python `int()`
truncates the float product toward zero, which for every realistic word
count equals `⌊words * 13 / 10⌋`; natural division expresses exactly
that floor. -/
def estimate_tokens (text : Str) : Nat :=
  (pySplit text).length * 13 / 10

/-! ## `backend/tasks/document_tasks.py` -/

/-- The document-record columns the task touches. -/
structure DocRecord where
  processing_status : Str := "pending".toList
  chunk_count : Option Nat := none
  processing_error : Option Str := none
deriving DecidableEq, Repr

/-- The documents table, keyed by id. -/
abbrev DocDb := List (Int × DocRecord)

/-- `db.query(Document).filter(id == doc_id).first()`. -/
def lookupDoc (db : DocDb) (doc_id : Int) : Option DocRecord :=
  (db.find? (fun e => e.1 = doc_id)).map (·.2)

/-- Commit a change to one document record. -/
def updateDoc (db : DocDb) (doc_id : Int) (f : DocRecord → DocRecord) : DocDb :=
  db.map (fun e => if e.1 = doc_id then (e.1, f e.2) else e)

/-- Celery task options: `max_retries=2`. -/
def MAX_RETRIES : Nat := 2

/-- Celery task options: `default_retry_delay=30` (seconds). -/
def DEFAULT_RETRY_DELAY : Nat := 30

/-- What the external pipeline run did: produced `chunks` chunks, or
raised an exception whose message is `msg` (download and processing
failures alike). -/
inductive PipelineOutcome : Type where
  | ok (chunks : Nat)
  | failure (msg : Str)
deriving DecidableEq, Repr

/-- How one invocation of the task ends. -/
inductive TaskOutcome : Type where
  | notFound
  | done (chunks : Nat)
  | retryRaised (delay : Nat)
  | failed (error : Str)
deriving DecidableEq, Repr

/-- The observable effects of one task invocation. -/
structure TaskRun where
  db : DocDb
  result : TaskOutcome
  temp_dir_created : Bool
  temp_dir_removed : Bool
deriving Repr

/-- One invocation of `process_document_task` at retry count `retries`.
The temp directory is created after the record is marked `processing`;
the `finally` block removes it whenever it was created, on the success,
failure and retry-raise paths alike.  On failure the record is marked
`failed` with the message truncated to 500 characters, and
`self.retry` is re-raised exactly while `retries < max_retries`;
afterwards a terminal failure dict (message truncated to 200) is
returned. -/
def process_document_task (db : DocDb) (doc_id : Int)
    (outcome : PipelineOutcome) (retries : Nat) : TaskRun :=
  match lookupDoc db doc_id with
  | none => { db := db, result := .notFound,
              temp_dir_created := false, temp_dir_removed := false }
  | some _ =>
      let db1 := updateDoc db doc_id
        (fun d => { d with processing_status := "processing".toList })
      match outcome with
      | .ok n =>
          let db2 := updateDoc db1 doc_id (fun d =>
            { d with processing_status := "done".toList,
                     chunk_count := some n, processing_error := none })
          { db := db2, result := .done n,
            temp_dir_created := true, temp_dir_removed := true }
      | .failure msg =>
          let db2 := updateDoc db1 doc_id (fun d =>
            { d with processing_status := "failed".toList,
                     processing_error := some (msg.take 500) })
          if retries < MAX_RETRIES then
            { db := db2, result := .retryRaised DEFAULT_RETRY_DELAY,
              temp_dir_created := true, temp_dir_removed := true }
          else
            { db := db2, result := .failed (msg.take 200),
              temp_dir_created := true, temp_dir_removed := true }

/-! ## Claims about `estimate_tokens` (C10) -/

/-- The claim says the estimate is the ceiling of `words * 1.3`; on a
three-word text the code yields `int(3.9) = 3` while the ceiling is 4. -/
theorem C10_counterexample :
    ¬ (estimate_tokens "a b c".toList
        = ⌈((pySplit "a b c".toList).length : ℚ) * (13 / 10)⌉₊) := by
  have h1 : estimate_tokens "a b c".toList = 3 := by decide
  have hn : (pySplit "a b c".toList).length = 3 := by decide
  intro h
  rw [h1, hn] at h
  have h4 : ⌈((3 : ℕ) : ℚ) * (13 / 10)⌉₊ = 4 := by
    rw [Nat.ceil_eq_iff (by norm_num)]
    constructor <;> norm_num
  rw [h4] at h
  exact absurd h (by norm_num)

/-- C10 (amended): for every text, the estimated token count equals the
floor (not the ceiling) of the whitespace-word count times 1.3. -/
theorem C10_estimate_tokens_floor (text : Str) :
    estimate_tokens text = ⌊((pySplit text).length : ℚ) * (13 / 10)⌋₊ := by
  have h : ((pySplit text).length : ℚ) * (13 / 10)
      = ((13 * (pySplit text).length : ℕ) : ℚ) / ((10 : ℕ) : ℚ) := by
    push_cast
    ring
  rw [estimate_tokens, h, Nat.floor_div_nat, Nat.floor_natCast, Nat.mul_comm]

/-! ## Claims about `merge_metadata` (C9) -/

/-- A chunk record whose only set field is the scalar `test_date`. -/
def chunkMetaW : DocMetadata := { test_date := some "01.01.2024".toList }

/-- The claim says every scalar field is overridden by a non-empty
chunk value; `test_date` is not: the merge keeps the document value. -/
theorem C9_counterexample :
    truthy chunkMetaW.test_date = true ∧
    (merge_metadata {} chunkMetaW).test_date ≠ chunkMetaW.test_date := by
  decide

/-- C9 (amended): `merge_metadata` unions and deduplicates the four list
fields, lets a truthy chunk value override exactly the scalar fields
`test_type`, `vehicle_model` and `chassis_no`, and keeps the
document-level value of every other scalar field unconditionally. -/
theorem C9_merge_metadata_correct (doc chunk : DocMetadata) :
    ((merge_metadata doc chunk).keywords.Nodup ∧
      ∀ x, x ∈ (merge_metadata doc chunk).keywords ↔
        x ∈ doc.keywords ∨ x ∈ chunk.keywords) ∧
    ((merge_metadata doc chunk).test_parameters.Nodup ∧
      ∀ x, x ∈ (merge_metadata doc chunk).test_parameters ↔
        x ∈ doc.test_parameters ∨ x ∈ chunk.test_parameters) ∧
    ((merge_metadata doc chunk).compliance_status.Nodup ∧
      ∀ x, x ∈ (merge_metadata doc chunk).compliance_status ↔
        x ∈ doc.compliance_status ∨ x ∈ chunk.compliance_status) ∧
    ((merge_metadata doc chunk).standards.Nodup ∧
      ∀ x, x ∈ (merge_metadata doc chunk).standards ↔
        x ∈ doc.standards ∨ x ∈ chunk.standards) ∧
    ((truthy chunk.test_type = true →
        (merge_metadata doc chunk).test_type = chunk.test_type) ∧
      (truthy chunk.test_type = false →
        (merge_metadata doc chunk).test_type = doc.test_type)) ∧
    ((truthy chunk.vehicle_model = true →
        (merge_metadata doc chunk).vehicle_model = chunk.vehicle_model) ∧
      (truthy chunk.vehicle_model = false →
        (merge_metadata doc chunk).vehicle_model = doc.vehicle_model)) ∧
    ((truthy chunk.chassis_no = true →
        (merge_metadata doc chunk).chassis_no = chunk.chassis_no) ∧
      (truthy chunk.chassis_no = false →
        (merge_metadata doc chunk).chassis_no = doc.chassis_no)) ∧
    (merge_metadata doc chunk).doc_id = doc.doc_id ∧
    (merge_metadata doc chunk).test_date = doc.test_date ∧
    (merge_metadata doc chunk).report_no = doc.report_no ∧
    (merge_metadata doc chunk).registration_no = doc.registration_no ∧
    (merge_metadata doc chunk).engine_model = doc.engine_model ∧
    (merge_metadata doc chunk).gvw = doc.gvw ∧
    (merge_metadata doc chunk).power = doc.power := by
  refine ⟨⟨?_, ?_⟩, ⟨?_, ?_⟩, ⟨?_, ?_⟩, ⟨?_, ?_⟩, ⟨?_, ?_⟩, ⟨?_, ?_⟩,
    ⟨?_, ?_⟩, ?_, ?_, ?_, ?_, ?_, ?_, ?_⟩ <;>
    simp [merge_metadata, List.nodup_dedup, List.mem_dedup, List.mem_append] <;>
    intro h <;> simp [h]

/-- Witness for C9: a truthy chunk `test_type` does override, at a
concrete pair of records. -/
theorem C9_merge_metadata_correct_witness :
    truthy ({ test_type := some "brake".toList } : DocMetadata).test_type = true ∧
    (merge_metadata { test_type := some "noise".toList }
        { test_type := some "brake".toList }).test_type
      = some "brake".toList :=
  ⟨by decide,
    (C9_merge_metadata_correct { test_type := some "noise".toList }
      { test_type := some "brake".toList }).2.2.2.2.1.1 (by decide)⟩

/-! ## Claims about `generate_node` (C2) -/

/-- The claim says the zero-chunk response is the `_GROUNDING_RULES`
refusal string; the code returns a different fixed string on that path. -/
theorem C2_counterexample :
    (generate_node (fun _ => []) (fun _ _ _ _ => ([], []))
        { query := "q".toList }).response ≠ UNAVAILABLE_RESPONSE := by
  decide

/-- C2 (amended): when retrieval returns zero chunks, `generate_node`
produces exactly the fixed string `I couldn't find relevant information
in the uploaded documents for your query.` without consulting the LLM;
this differs from the `_GROUNDING_RULES` refusal string, which is only an
instruction to the LLM for insufficient context. -/
theorem C2_zero_chunks_fixed_response (llm : Str × Str → Str)
    (promptBuilder : Str → Str → Str → Str → Str × Str) (st : AgentState)
    (h : st.retrieved_chunks = []) :
    (generate_node llm promptBuilder st).response = NO_RESULTS_RESPONSE ∧
    NO_RESULTS_RESPONSE ≠ UNAVAILABLE_RESPONSE := by
  refine ⟨?_, by decide⟩
  simp [generate_node, h]

/-- Witness for C2 at a concrete empty state. -/
theorem C2_zero_chunks_fixed_response_witness :
    (generate_node (fun _ => []) (fun _ _ _ _ => ([], []))
        { query := "q".toList }).response = NO_RESULTS_RESPONSE :=
  (C2_zero_chunks_fixed_response (fun _ => []) (fun _ _ _ _ => ([], []))
    { query := "q".toList } rfl).1

/-! ## Claims about the enhanced query (C8) -/

/-- C8: `extract_filters_from_query` returns its input unchanged as the
first component; on the agent-graph path the stored `enhanced_query` and
the string handed to the retriever are therefore the raw user query,
while the non-agent `generate_answer` pipeline embeds
`build_enhanced_query` of the query (which genuinely differs on a query
with selectors). -/
theorem C8_agent_path_uses_raw_query (q : Str) (st : AgentState)
    (retriever : Str → ExtractedFilters → List RetrievedChunk) :
    (extract_filters_from_query q).1 = q ∧
    (extract_metadata_node st).enhanced_query = some st.query ∧
    (retrieve_node retriever (extract_metadata_node st)).retrieved_chunks
      = retriever st.query (extract_filters_from_query st.query).2 ∧
    pipeline_enhanced_query q
      = build_enhanced_query q (extract_filters_from_query q).2 ∧
    pipeline_enhanced_query "Summarize ETR-02-24-12 for Pro 3012".toList
      ≠ "Summarize ETR-02-24-12 for Pro 3012".toList := by
  refine ⟨rfl, rfl, ?_, rfl, by decide⟩
  simp [retrieve_node, extract_metadata_node, extract_filters_from_query]

/-! ## Claims about filter extraction (C7) -/

/-- The query of the worked example in the spec. -/
def exampleQuery : Str := "Summarize ETR-02-24-12 for Pro 3012".toList

/-- C7: a detected document id is normalised by dash-to-underscore plus
upper-casing, a detected test type by space-to-underscore plus
lower-casing, and on the worked example the filters and the enhanced
query are exactly as the spec states. -/
theorem C7_filter_extraction :
    (∀ q m, reSearch docIdPat q = some m →
      (extract_filters_from_query q).2.doc_id
        = some (pyUpper (pyReplaceChar '-' '_' m))) ∧
    (∀ q m, reSearch testTypePat q = some m →
      (extract_filters_from_query q).2.test_type
        = some (pyReplaceChar ' ' '_' (pyLower m))) ∧
    (extract_filters_from_query exampleQuery).2
      = { doc_id := some "ETR_02_24_12".toList,
          vehicle_model := some "Pro 3012".toList } ∧
    build_enhanced_query exampleQuery (extract_filters_from_query exampleQuery).2
      = ("Summarize ETR-02-24-12 for Pro 3012" ++
          " [Document: ETR_02_24_12 | Vehicle: Pro 3012]").toList := by
  refine ⟨?_, ?_, by decide, by decide⟩
  · intro q m h
    simp [extract_filters_from_query, h]
  · intro q m h
    simp [extract_filters_from_query, h]

/-- Witness for C7: the document-id normalisation applied at the worked
example. -/
theorem C7_filter_extraction_witness :
    (extract_filters_from_query exampleQuery).2.doc_id
      = some (pyUpper (pyReplaceChar '-' '_' "ETR-02-24-12".toList)) :=
  C7_filter_extraction.1 exampleQuery "ETR-02-24-12".toList (by decide)

/-! ## Claims about intent classification (C5) -/

/-- C5: the LLM fallback runs exactly when the caller opts in or the
rule-based confidence is below 0.75; it is total, falls back to the
rule-based result on an exception of the LLM call, and maps an
unparseable response to `document_query`. -/
theorem C5_intent_fallback (llm : Except Unit Str) (q : Str)
    (hist : List Str) (use_llm : Bool) :
    ((use_llm = true ∨
        (classify_intent_rule_based q (hist ≠ [])).2 < mkRat 75 100) →
      classify_intent llm q hist use_llm = classify_intent_llm llm q hist) ∧
    (¬ (use_llm = true ∨
        (classify_intent_rule_based q (hist ≠ [])).2 < mkRat 75 100) →
      classify_intent llm q hist use_llm
        = classify_intent_rule_based q (hist ≠ [])) ∧
    (∀ e, llm = .error e →
      classify_intent_llm llm q hist
        = classify_intent_rule_based q (hist ≠ [])) ∧
    (∀ r, llm = .ok r → parseIntent (pyUpper (pyStrip r)) = none →
      classify_intent_llm llm q hist = (.document_query, mkRat 6 10)) := by
  have hcond :
      ((use_llm ||
          decide ((classify_intent_rule_based q (hist ≠ [])).2 < mkRat 75 100))
        = true)
      ↔ (use_llm = true ∨
          (classify_intent_rule_based q (hist ≠ [])).2 < mkRat 75 100) := by
    simp [Bool.or_eq_true, decide_eq_true_iff]
  refine ⟨fun h => ?_, fun h => ?_, fun e he => ?_, fun r hr hp => ?_⟩
  · unfold classify_intent
    rw [if_pos (hcond.mpr h)]
  · unfold classify_intent
    rw [if_neg (fun hb => h (hcond.mp hb))]
  · simp [classify_intent_llm, he]
  · simp [classify_intent_llm, hr, hp]

/-- Witness for C5: a short query with history scores 0.7 < 0.75; the
fallback is invoked, and both fallback behaviours are exercised. -/
theorem C5_intent_fallback_witness :
    (classify_intent_rule_based "ok".toList (["h".toList] ≠ [])).2
        < mkRat 75 100 ∧
    classify_intent (.error ()) "ok".toList ["h".toList] false
      = classify_intent_llm (.error ()) "ok".toList ["h".toList] ∧
    classify_intent_llm (.error ()) "ok".toList ["h".toList]
      = classify_intent_rule_based "ok".toList (["h".toList] ≠ []) ∧
    classify_intent_llm (.ok "GIBBERISH".toList) "ok".toList ["h".toList]
      = (.document_query, mkRat 6 10) :=
  ⟨by decide,
   (C5_intent_fallback (.error ()) "ok".toList ["h".toList] false).1
     (Or.inr (by decide)),
   (C5_intent_fallback (.error ()) "ok".toList ["h".toList] false).2.2.1
     () rfl,
   (C5_intent_fallback (.ok "GIBBERISH".toList) "ok".toList
     ["h".toList] false).2.2.2 "GIBBERISH".toList rfl (by decide)⟩

/-! ## Claims about the ingestion task (C4) -/

/-- Committing a change to one record is visible to a later lookup of
the same id. -/
theorem lookupDoc_updateDoc (db : DocDb) (doc_id : Int)
    (f : DocRecord → DocRecord) :
    lookupDoc (updateDoc db doc_id f) doc_id = (lookupDoc db doc_id).map f := by
  induction db with
  | nil => rfl
  | cons e t ih =>
      by_cases h : e.1 = doc_id
      · simp [lookupDoc, updateDoc, List.find?_cons, h]
      · simpa [lookupDoc, updateDoc, List.find?_cons, h] using ih

/-- C4: on a failing attempt the record is marked `failed` with the
message truncated to at most 500 characters; `self.retry` is re-raised
exactly while retries remain (two retries, 30 s delay); and the temp
directory is removed on every exit path on which it was created. -/
theorem C4_task_failure_behaviour (db : DocDb) (doc_id : Int) (msg : Str)
    (retries : Nat) (r : DocRecord) (hdoc : lookupDoc db doc_id = some r) :
    (MAX_RETRIES = 2 ∧ DEFAULT_RETRY_DELAY = 30) ∧
    ((process_document_task db doc_id (.failure msg) retries).result
        = .retryRaised DEFAULT_RETRY_DELAY ↔ retries < MAX_RETRIES) ∧
    (lookupDoc (process_document_task db doc_id (.failure msg) retries).db
        doc_id).map (fun d => d.processing_status) = some "failed".toList ∧
    (lookupDoc (process_document_task db doc_id (.failure msg) retries).db
        doc_id).map (fun d => d.processing_error)
      = some (some (msg.take 500)) ∧
    (msg.take 500).length ≤ 500 ∧
    (∀ oc rt, (process_document_task db doc_id oc rt).temp_dir_created = true →
      (process_document_task db doc_id oc rt).temp_dir_removed = true) := by
  refine ⟨⟨rfl, rfl⟩, ?_, ?_, ?_, ?_, ?_⟩
  · unfold process_document_task
    rw [hdoc]
    by_cases h : retries < MAX_RETRIES
    · simp [h]
    · simp [h]
  · unfold process_document_task
    rw [hdoc]
    by_cases h : retries < MAX_RETRIES <;>
      simp [h, lookupDoc_updateDoc, hdoc]
  · unfold process_document_task
    rw [hdoc]
    by_cases h : retries < MAX_RETRIES <;>
      simp [h, lookupDoc_updateDoc, hdoc]
  · simpa using min_le_right msg.length 500
  · intro oc rt
    unfold process_document_task
    rw [hdoc]
    cases oc with
    | ok n => simp
    | failure m =>
        by_cases h : rt < MAX_RETRIES <;> simp [h]

/-- Witness for C4 at a one-row table with exhausted retries. -/
theorem C4_task_failure_behaviour_witness :
    ((process_document_task [((1 : Int), {})] 1 (.failure "boom".toList) 2).result
      = .failed "boom".toList) ∧
    (lookupDoc (process_document_task [((1 : Int), {})] 1
        (.failure "boom".toList) 2).db 1).map (fun d => d.processing_status)
      = some "failed".toList :=
  ⟨by decide,
   (C4_task_failure_behaviour [((1 : Int), {})] 1 "boom".toList 2 {}
     (by decide)).2.2.1⟩

/-! ## Claims about retrieval (C1, C6) -/

/-- Insertion preserves membership. -/
theorem mem_insertByScore {score : QPoint → ℚ} {p q : QPoint} {l : List QPoint} :
    q ∈ insertByScore score p l ↔ q = p ∨ q ∈ l := by
  induction l with
  | nil => simp [insertByScore]
  | cons x xs ih =>
      by_cases h : score x ≤ score p
      · simp [insertByScore, h, List.mem_cons]
      · simp [insertByScore, h, List.mem_cons, ih]
        tauto

/-- Sorting preserves membership. -/
theorem mem_sortByScoreDesc {score : QPoint → ℚ} {l : List QPoint} {p : QPoint} :
    p ∈ sortByScoreDesc score l ↔ p ∈ l := by
  induction l with
  | nil => simp [sortByScoreDesc]
  | cons x xs ih => simp [sortByScoreDesc, mem_insertByScore, ih]

/-- Sorting preserves length. -/
theorem length_insertByScore (score : QPoint → ℚ) (p : QPoint) (l : List QPoint) :
    (insertByScore score p l).length = l.length + 1 := by
  induction l with
  | nil => rfl
  | cons x xs ih =>
      by_cases h : score x ≤ score p
      · simp [insertByScore, h]
      · simp [insertByScore, h, ih]

/-- Sorting preserves length. -/
theorem length_sortByScoreDesc (score : QPoint → ℚ) (l : List QPoint) :
    (sortByScoreDesc score l).length = l.length := by
  induction l with
  | nil => rfl
  | cons x xs ih => simp [sortByScoreDesc, length_insertByScore, ih]

/-- Everything `query_points` returns comes from the collection and
satisfies every `must` condition. -/
theorem mem_query_points {coll : List QPoint} {score : QPoint → ℚ}
    {conds : List Condition} {limit : Nat} {p : QPoint}
    (h : p ∈ query_points coll score conds limit) :
    p ∈ coll ∧ ∀ c ∈ conds, satisfies p c = true := by
  unfold query_points at h
  have h1 := List.take_subset _ _ h
  rw [mem_sortByScoreDesc] at h1
  have h2 := List.mem_filter.mp h1
  refine ⟨h2.1, fun c hc => ?_⟩
  exact List.all_eq_true.mp h2.2 c hc

/-- A point satisfying the group condition has its `group_id` in the
requested list. -/
theorem satisfies_group_cond {p : QPoint} {ids : List Int}
    (h : satisfies p ⟨"metadata.group_id", .matchAnyInt ids⟩ = true) :
    p.meta.group_id ∈ ids := by
  have hp : payloadValue p "metadata.group_id" = .int p.meta.group_id := rfl
  unfold satisfies at h
  rw [hp] at h
  exact of_decide_eq_true h

/-- C1: every point returned by the dense-only `search` and by
`hybrid_search` has `metadata.group_id` in the requested group ids,
for every combination of the optional filters (the group condition is
unconditionally part of the `must` filter of both operations). -/
theorem C1_group_access_control (coll : List QPoint) (ds ss : QPoint → ℚ)
    (k : Nat) (gids : List Int) (limit plim : Nat)
    (filters : Option RetrievalFilters) (p : QPoint) :
    (p ∈ search coll ds gids limit → p.meta.group_id ∈ gids) ∧
    (p ∈ hybrid_search coll ds ss k gids limit plim filters →
      p.meta.group_id ∈ gids) := by
  constructor
  · intro h
    unfold search at h
    have h2 := mem_query_points h
    exact satisfies_group_cond (h2.2 _ (by simp [searchFilter]))
  · intro h
    simp only [hybrid_search] at h
    have h1 := List.take_subset _ _ h
    rw [mem_sortByScoreDesc, List.mem_dedup, List.mem_append] at h1
    have hhead : (⟨"metadata.group_id", .matchAnyInt gids⟩ : Condition)
        ∈ hybrid_must_conditions gids filters := by
      unfold hybrid_must_conditions
      exact List.mem_cons_self _ _
    rcases h1 with h1 | h1 <;>
      exact satisfies_group_cond ((mem_query_points h1).2 _ hhead)

/-- A one-point collection used by the retrieval witnesses. -/
def pW : QPoint := { id := 0, meta := { group_id := 5 } }

/-- Witness for C1: the point returned by a concrete hybrid search is in
the requested group. -/
theorem C1_group_access_control_witness :
    pW ∈ hybrid_search [pW] (fun _ => 0) (fun _ => 0) 60 [5] 10 20 none ∧
    pW.meta.group_id ∈ [(5 : Int)] :=
  have hmem : pW ∈ hybrid_search [pW] (fun _ => 0) (fun _ => 0) 60 [5] 10 20 none := by
    decide
  ⟨hmem, (C1_group_access_control [pW] (fun _ => 0) (fun _ => 0) 60 [5] 10 20
    none pW).2 hmem⟩

/-- The length of a hybrid search result: `limit` capped by the fused
candidate pool. -/
theorem length_hybrid_search (coll : List QPoint) (ds ss : QPoint → ℚ)
    (k : Nat) (gids : List Int) (limit plim : Nat)
    (filters : Option RetrievalFilters) :
    (hybrid_search coll ds ss k gids limit plim filters).length
      = min limit ((query_points coll ds (hybrid_must_conditions gids filters)
            plim ++
          query_points coll ss (hybrid_must_conditions gids filters)
            plim).dedup).length := by
  simp only [hybrid_search]
  rw [List.length_take, length_sortByScoreDesc]

/-- An eleven-point collection, all in group 1. -/
def coll11 : List QPoint :=
  (List.range 11).map (fun i => { id := i, meta := { group_id := 1 } })

/-- The claim says the defaults are `prefetch_limit = 40` and
`limit = 20`; calling `hybrid_search` with its actual defaults on an
eleven-candidate collection returns 10 points, not the 11 that a
`limit` default of 20 would give. -/
theorem C6_counterexample :
    (hybrid_search coll11 (fun _ => 0) (fun _ => 0) 60 [1]).length = 10 ∧
    coll11.length = 11 ∧
    ¬ ((hybrid_search coll11 (fun _ => 0) (fun _ => 0) 60 [1]).length
        = min 20 coll11.length) := by
  have hlen := length_hybrid_search coll11 (fun _ => 0) (fun _ => 0) 60 [1]
    10 20 none
  have hpool : ((query_points coll11 (fun _ => 0)
        (hybrid_must_conditions [1] none) 20 ++
      query_points coll11 (fun _ => 0)
        (hybrid_must_conditions [1] none) 20).dedup).length = 11 := by decide
  rw [hpool] at hlen
  refine ⟨hlen, by decide, ?_⟩
  rw [hlen]
  decide

/-- C6 (amended): `hybrid_search` prefetches the top `prefetch_limit`
(default 20) candidates from each of the dense and sparse spaces under
the full `must` filter, fuses them by RRF (score = Σ over spaces of
`1 / (k + rank)`), and returns the top `limit` (default 10) of the fused
pool. -/
theorem C6_hybrid_search_rrf (coll : List QPoint) (ds ss : QPoint → ℚ)
    (k : Nat) (gids : List Int) (limit plim : Nat)
    (filters : Option RetrievalFilters) :
    (hybrid_search coll ds ss k gids
      = hybrid_search coll ds ss k gids 10 20 none) ∧
    (hybrid_search coll ds ss k gids limit plim filters).length ≤ limit ∧
    (∀ p, p ∈ hybrid_search coll ds ss k gids limit plim filters →
      p ∈ query_points coll ds (hybrid_must_conditions gids filters) plim ∨
      p ∈ query_points coll ss (hybrid_must_conditions gids filters) plim) ∧
    (query_points coll ds (hybrid_must_conditions gids filters) plim).length
      ≤ plim ∧
    hybrid_search coll ds ss k gids limit plim filters
      = (sortByScoreDesc
          (rrfScore k
            [query_points coll ds (hybrid_must_conditions gids filters) plim,
             query_points coll ss (hybrid_must_conditions gids filters) plim])
          ((query_points coll ds (hybrid_must_conditions gids filters) plim ++
            query_points coll ss (hybrid_must_conditions gids filters)
              plim).dedup)).take limit := by
  refine ⟨rfl, ?_, ?_, ?_, rfl⟩
  · rw [length_hybrid_search]
    exact min_le_left _ _
  · intro p h
    simp only [hybrid_search] at h
    have h1 := List.take_subset _ _ h
    rw [mem_sortByScoreDesc, List.mem_dedup, List.mem_append] at h1
    exact h1
  · unfold query_points
    exact (List.length_take _ _).le.trans (min_le_left _ _)

/-- Witness for C6: the single point of a concrete search came from one
of the two prefetch lists. -/
theorem C6_hybrid_search_rrf_witness :
    pW ∈ query_points [pW] (fun _ => 0) (hybrid_must_conditions [5] none) 20 ∨
    pW ∈ query_points [pW] (fun _ => 0) (hybrid_must_conditions [5] none) 20 :=
  (C6_hybrid_search_rrf [pW] (fun _ => 0) (fun _ => 0) 60 [5] 10 20 none).2.2.1
    pW (by decide)

/-! ## Claims about chunking (C3) -/

/-- Every chunk flushed from the text buffer is a `text` chunk of the
flushing page. -/
theorem mem_flushBuffer {pn cs ov : Nat} {b : Str} {c : Chunk}
    (h : c ∈ flushBuffer pn cs ov b) :
    c.chunk_type = "text".toList ∧ c.page_number = pn := by
  unfold flushBuffer at h
  split at h
  · obtain ⟨t, _, rfl⟩ := List.mem_map.mp h
    exact ⟨rfl, rfl⟩
  · simp at h

/-- Flushed buffers contribute no `table` chunks. -/
theorem filter_table_flushBuffer (pn cs ov : Nat) (b : Str) :
    (flushBuffer pn cs ov b).filter
      (fun c => c.chunk_type = "table".toList) = [] := by
  rw [List.filter_eq_nil_iff]
  intro c hc
  rw [(mem_flushBuffer hc).1]
  decide

/-- The `table`-typed chunks of the part loop are exactly the non-empty
stripped parts recognised as tables, each as one chunk, in order. -/
theorem chunkParts_tables (pn cs ov : Nat) (parts : List Str) :
    ∀ buf, ((chunkParts pn cs ov parts buf).filter
        (fun c => c.chunk_type = "table".toList)).map (fun c => c.text)
      = ((parts.map pyStrip).filter (fun p => p ≠ [])).filter isTablePart := by
  induction parts with
  | nil =>
      intro buf
      rw [show chunkParts pn cs ov [] buf = flushBuffer pn cs ov buf from rfl,
        filter_table_flushBuffer]
      rfl
  | cons p ps ih =>
      intro buf
      rw [List.map_cons]
      by_cases h1 : pyStrip p = []
      · rw [List.filter_cons_of_neg (by simp [h1])]
        have hL : chunkParts pn cs ov (p :: ps) buf
            = chunkParts pn cs ov ps buf := by
          simp only [chunkParts, h1, ite_true]
        rw [hL, ih buf]
      · rw [List.filter_cons_of_pos (by simp [h1])]
        by_cases h2 : isTablePart (pyStrip p)
        · rw [List.filter_cons_of_pos h2]
          have hL : chunkParts pn cs ov (p :: ps) buf
              = flushBuffer pn cs ov buf ++
                ({ text := pyStrip p, page_number := pn,
                   chunk_type := "table".toList } ::
                  chunkParts pn cs ov ps []) := by
            simp only [chunkParts, h1, h2, ite_false, ite_true,
              if_neg (fun h => h1 h)]
          rw [hL, List.filter_append, filter_table_flushBuffer,
            List.nil_append, List.filter_cons_of_pos (by simp),
            List.map_cons, ih []]
        · rw [List.filter_cons_of_neg (by simpa using h2)]
          have hL : chunkParts pn cs ov (p :: ps) buf
              = chunkParts pn cs ov ps (buf ++ '\n' :: pyStrip p) := by
            simp only [chunkParts, h1, h2, ite_false,
              if_neg (fun h => h1 h)]
            rfl
          rw [hL, ih (buf ++ '\n' :: pyStrip p)]

/-- Every chunk the part loop emits carries the page number of the page
being chunked. -/
theorem chunkParts_page (pn cs ov : Nat) (parts : List Str) :
    ∀ buf c, c ∈ chunkParts pn cs ov parts buf → c.page_number = pn := by
  induction parts with
  | nil =>
      intro buf c hc
      exact (mem_flushBuffer (by simpa [chunkParts] using hc)).2
  | cons p ps ih =>
      intro buf c hc
      by_cases h1 : pyStrip p = []
      · exact ih buf c (by simpa [chunkParts, h1] using hc)
      · by_cases h2 : isTablePart (pyStrip p)
        · simp only [chunkParts, h1, h2, if_neg, if_pos, ite_true, ite_false,
            List.mem_append, List.mem_cons] at hc
          rcases hc with hc | hc | hc
          · exact (mem_flushBuffer hc).2
          · rw [hc]
          · exact ih [] c hc
        · exact ih (buf ++ '\n' :: pyStrip p) c
            (by simpa [chunkParts, h1, h2] using hc)

/-- The word-window loop never emits an empty window. -/
theorem nil_not_mem_chunkTextWords (cs ov : Nat) (ws : List Str) :
    [] ∉ chunkTextWords cs ov ws := by
  induction ws using chunkTextWords.induct cs ov with
  | case1 => simp [chunkTextWords]
  | case2 x hx hle => simp [chunkTextWords, hx, hle]
  | case3 x hx hle w hw ih =>
      intro hmem
      rw [chunkTextWords, dif_neg hx, dif_neg hle, if_pos hw] at hmem
      exact ih hmem
  | case4 x hx hle w hw ih =>
      intro hmem
      rw [chunkTextWords, dif_neg hx, dif_neg hle, if_neg hw] at hmem
      rcases List.mem_cons.mp hmem with hmem | hmem
      · exact hw hmem.symm
      · exact ih hmem

/-- Every chunk emitted for a page carries that page's number. -/
theorem pageChunks_page (split : Str → List Str) (cs ov : Nat)
    (page : PageInput) (c : Chunk) (h : c ∈ pageChunks split cs ov page) :
    c.page_number = page.page_number := by
  unfold pageChunks at h
  split at h
  · split at h
    · rw [List.mem_singleton.mp h]
    · simp at h
  · split at h
    · exact chunkParts_page _ _ _ _ _ _ h
    · obtain ⟨t, _, rfl⟩ := List.mem_map.mp h
      rfl

/-- C3: tables are never split (each recognised table part becomes
exactly one `table` chunk); a non-blank slide page within 1.5× the chunk
size becomes a single `slide` chunk, and an oversized slide page falls
through to the standard (prose/table) chunking; every emitted chunk
carries the page number of its source page; and an empty word window is
dropped rather than emitted. -/
theorem C3_chunking_invariants (split : Str → List Str)
    (chunkSize overlap : Nat) (pages : List PageInput) (page : PageInput)
    (parts : List Str) (pn : Nat) :
    (((chunkParts pn chunkSize overlap parts []).filter
        (fun c => c.chunk_type = "table".toList)).map (fun c => c.text)
      = ((parts.map pyStrip).filter (fun p => p ≠ [])).filter isTablePart) ∧
    (page.extraction_method = "python-pptx".toList →
      2 * (pySplit page.text).length ≤ 3 * chunkSize →
      pyStrip page.text ≠ [] →
      chunk_document_pages split [page] chunkSize overlap
        = [{ text := page.text, page_number := page.page_number,
             chunk_type := "slide".toList }]) ∧
    (3 * chunkSize < 2 * (pySplit page.text).length →
      chunk_document_pages split [page] chunkSize overlap
        = chunk_document_pages split [{ page with extraction_method := [] }]
            chunkSize overlap) ∧
    (∀ c ∈ chunk_document_pages split pages chunkSize overlap,
      ∃ pg ∈ pages, c.page_number = pg.page_number) ∧
    (∀ ws, [] ∉ chunkTextWords chunkSize overlap ws) := by
  refine ⟨chunkParts_tables _ _ _ _ [], ?_, ?_, ?_,
    nil_not_mem_chunkTextWords _ _⟩
  · intro hm hsz hne
    simp [chunk_document_pages, pageChunks, hm, hsz, hne]
  · intro hsz
    have h1 : ¬ (page.extraction_method = "python-pptx".toList ∧
        2 * (pySplit page.text).length ≤ 3 * chunkSize) := by
      rintro ⟨-, h⟩
      omega
    have h2 : ¬ (({ page with extraction_method := [] } :
          PageInput).extraction_method = "python-pptx".toList ∧
        2 * (pySplit ({ page with extraction_method := [] } :
          PageInput).text).length ≤ 3 * chunkSize) := by
      rintro ⟨h, -⟩
      simp at h
    simp only [chunk_document_pages, pageChunks, h1, h2, if_neg,
      List.flatMap_cons, List.flatMap_nil, List.append_nil]
  · intro c hc
    obtain ⟨pg, hpg, hm⟩ := List.mem_flatMap.mp hc
    exact ⟨pg, hpg, pageChunks_page _ _ _ _ _ hm⟩

/-- A blank `python-pptx` page (word count 0 ≤ 1.5× chunk size) emits no
chunk at all, where the claim as stated promises a single `slide`
chunk. -/
theorem C3_counterexample :
    ({ text := "   ".toList, page_number := 1,
        extraction_method := "python-pptx".toList } :
          PageInput).extraction_method = "python-pptx".toList ∧
    2 * (pySplit "   ".toList).length ≤ 3 * 300 ∧
    chunk_document_pages (fun t => [t])
      [{ text := "   ".toList, page_number := 1,
         extraction_method := "python-pptx".toList }] 300 50 = [] := by
  refine ⟨rfl, by decide, by decide⟩

/-- Witness for C3: a concrete non-blank slide page becomes one `slide`
chunk. -/
theorem C3_chunking_invariants_witness :
    chunk_document_pages (fun t => [t])
      [{ text := "hello world".toList, page_number := 3,
         extraction_method := "python-pptx".toList }] 300 50
      = [{ text := "hello world".toList, page_number := 3,
           chunk_type := "slide".toList }] :=
  (C3_chunking_invariants (fun t => [t]) 300 50 []
    { text := "hello world".toList, page_number := 3,
      extraction_method := "python-pptx".toList } [] 1).2.1
    rfl (by decide) (by decide)

end ERag
